import Mathlib

/-!
Verification of `gtn_metadata_fetcher.py`, a single-file Python script that
fetches JSON metadata from the Galaxy Training Network API and prints a
human-readable summary.

The embedding models:
  * decoded JSON values (`Json`), as produced by Python's `json` module
    when decoding a response body.  An object is represented as the decoded
    Python `dict`: an insertion-ordered list of key/value pairs whose keys
    are pairwise distinct (the `json` module collapses duplicate keys
    before the program ever sees them).  JSON numbers are modelled as
    integers; no claim exercises float formatting.
  * Python semantics used by the script: truthiness, `dict.get`,
    `len`, subscripting with `[0]`, slicing with `[:5]`, and `str()`
    rendering inside f-strings.
  * the network as an oracle `World : String → HttpResult` mapping each
    requested URL to the final response delivered by `requests.get`
    (after any redirect handling internal to the library), or to a
    transport-level failure.
  * the exception taxonomy relevant to the two `except` clauses of `main`.
    Note on JSON decode failures: `requests.Response.json()` raises
    `requests.exceptions.JSONDecodeError`, which since requests 2.27
    (January 2022) is a subclass of `requests.exceptions.RequestException`
    (via `InvalidJSONError`); the script pins no requests version, so the
    current library behavior is modelled.

`main` is modelled as a pure function from the oracle to a run result:
the list of `print` calls made to standard output (each element is the
exact argument of one `print` call, embedded newlines included), the
lines printed to the error stream, and the process exit status.
-/

namespace GTN

/-- A decoded JSON value (the result of `response.json()`).  `obj` is the
decoded Python `dict`: entries in document insertion order, keys pairwise
distinct. -/
inductive Json where
  | null : Json
  | bool (b : Bool) : Json
  | num (n : Int) : Json
  | str (s : String) : Json
  | arr (elems : List Json) : Json
  | obj (entries : List (String × Json)) : Json
deriving Repr

mutual

/-- Python `repr()` of a decoded JSON value (string escaping inside quotes
is not modelled; no claim exercises it). -/
def Json.pyRepr : Json → String
  | .null => "None"
  | .bool true => "True"
  | .bool false => "False"
  | .num n => toString n
  | .str s => "'" ++ s ++ "'"
  | .arr l => "[" ++ Json.pyReprList l ++ "]"
  | .obj l => "\x7b" ++ Json.pyReprObj l ++ "\x7d"

/-- Comma-separated `repr()`s of the elements of a Python list. -/
def Json.pyReprList : List Json → String
  | [] => ""
  | [j] => Json.pyRepr j
  | j :: rest => Json.pyRepr j ++ ", " ++ Json.pyReprList rest

/-- Comma-separated `repr()`s of the entries of a Python dict. -/
def Json.pyReprObj : List (String × Json) → String
  | [] => ""
  | [(k, v)] => "'" ++ k ++ "': " ++ Json.pyRepr v
  | (k, v) :: rest => "'" ++ k ++ "': " ++ Json.pyRepr v ++ ", " ++ Json.pyReprObj rest

end

/-- Python `str()` of a decoded JSON value, as interpolated by an f-string:
a `str` renders as itself, every other value as its `repr()`. -/
def Json.pyStr : Json → String
  | .str s => s
  | j => j.pyRepr

/-- Python truthiness of a decoded JSON value (`bool(v)`). -/
def Json.truthy : Json → Bool
  | .null => false
  | .bool b => b
  | .num n => n != 0
  | .str s => !s.isEmpty
  | .arr l => !l.isEmpty
  | .obj l => !l.isEmpty

/-- The Python exceptions `main` can observe, split by the classes its two
`except` clauses test. -/
inductive PyError where
  /-- A transport-level failure raised by `requests.get`
  (`ConnectionError`, `Timeout`, ...). -/
  | transport (msg : String) : PyError
  /-- The `requests.exceptions.HTTPError` raised by `raise_for_status()`;
  carries the status code. -/
  | httpStatus (code : Nat) : PyError
  /-- The `requests.exceptions.JSONDecodeError` raised by `response.json()`
  on a body that is not valid JSON. -/
  | jsonDecode : PyError
  /-- An `AttributeError`, e.g. calling `.items()` or `.get()` on a value
  that is not a dict. -/
  | attributeError (msg : String) : PyError
  /-- A `TypeError`, e.g. `len()` of an unsized value or subscripting a
  non-subscriptable value. -/
  | typeError (msg : String) : PyError
  /-- A `KeyError`, e.g. `d[0]` on a dict with string keys. -/
  | keyError (msg : String) : PyError
  /-- An `IndexError`, e.g. `l[0]` on an empty list. -/
  | indexError : PyError
deriving Repr, DecidableEq

/-- Whether the exception is an instance of
`requests.exceptions.RequestException`, the class caught by the first
`except` clause of `main`.  Transport errors and `HTTPError` are
`RequestException`s; so is `requests.exceptions.JSONDecodeError`, which
subclasses `InvalidJSONError(RequestException)` since requests 2.27.
`AttributeError`, `TypeError`, `KeyError`, `IndexError` are not. -/
def PyError.isRequestException : PyError → Bool
  | .transport _ => true
  | .httpStatus _ => true
  | .jsonDecode => true
  | .attributeError _ => false
  | .typeError _ => false
  | .keyError _ => false
  | .indexError => false

/-- The `str()` of the exception, interpolated into the error line.  The
exact message text of library exceptions is abstracted; the claims only
constrain the fixed prefix of the printed line. -/
def PyError.msg : PyError → String
  | .transport m => m
  | .httpStatus code => toString code ++ " Error"
  | .jsonDecode => "Expecting value: line 1 column 1 (char 0)"
  | .attributeError m => m
  | .typeError m => m
  | .keyError m => "'" ++ m ++ "'"
  | .indexError => "list index out of range"

/-- The body of an HTTP response, abstracted to the outcome of attempting
to decode it as JSON: either its decoded value, or invalid (carrying the
raw text, which the model does not interpret). -/
inductive BodyContent where
  | invalid (raw : String) : BodyContent
  | valid (j : Json) : BodyContent
deriving Repr

/-- What the transport delivers for one `requests.get(url)` call: a
transport-level failure, or a final response with a status code and a
body. -/
inductive HttpResult where
  | transportError (msg : String) : HttpResult
  | response (status : Nat) (body : BodyContent) : HttpResult
deriving Repr

/-- The network oracle: the result `requests.get` yields for each URL.
The program is modelled against an arbitrary oracle. -/
def World : Type := String → HttpResult

/-- The `self.base_url` value set in `GTNMetadataFetcher.__init__`. -/
def baseUrl : String := "https://training.galaxyproject.org/training-material/api"

/-- The common body of every fetch method:
`response = requests.get(url); response.raise_for_status(); return response.json()`.
`raise_for_status` raises `HTTPError` exactly for status codes in
[400, 600); `response.json()` raises `JSONDecodeError` if the body is not
valid JSON. -/
def httpGetJson (w : World) (url : String) : Except PyError Json :=
  match w url with
  | .transportError m => .error (.transport m)
  | .response status body =>
    if 400 ≤ status ∧ status < 600 then
      .error (.httpStatus status)
    else
      match body with
      | .invalid _ => .error .jsonDecode
      | .valid j => .ok j

/-- Embeds `GTNMetadataFetcher.fetch_topics`: GET `{base_url}/topics.json`. -/
def fetch_topics (w : World) : Except PyError Json :=
  httpGetJson w (baseUrl ++ "/topics.json")

/-- Embeds `GTNMetadataFetcher.fetch_contributors`: GET `{base_url}/contributors.json`. -/
def fetch_contributors (w : World) : Except PyError Json :=
  httpGetJson w (baseUrl ++ "/contributors.json")

/-- Embeds `GTNMetadataFetcher.fetch_topic_details`: GET `{base_url}/topics/{topic_id}.json`. -/
def fetch_topic_details (w : World) (topic_id : String) : Except PyError Json :=
  httpGetJson w (baseUrl ++ "/topics/" ++ topic_id ++ ".json")

/-- Embeds `GTNMetadataFetcher.fetch_tutorial`: GET
`{base_url}/topics/{topic_id}/tutorials/{tutorial_id}/{material_type}.json`
(unused by `main`, included for completeness). -/
def fetch_tutorial (w : World) (topic_id tutorial_id : String)
    (material_type : String := "tutorial") : Except PyError Json :=
  httpGetJson w (baseUrl ++ "/topics/" ++ topic_id ++ "/tutorials/" ++
    tutorial_id ++ "/" ++ material_type ++ ".json")

/-- Embeds `GTNMetadataFetcher.fetch_top_tools`: GET `{base_url}/top-tools.json`. -/
def fetch_top_tools (w : World) : Except PyError Json :=
  httpGetJson w (baseUrl ++ "/top-tools.json")

/-- Python `v.items()`: succeeds exactly on a dict, yielding its entries in
insertion order; every other decoded JSON value lacks the attribute. -/
def Json.pyItems : Json → Except PyError (List (String × Json))
  | .obj entries => .ok entries
  | _ => .error (.attributeError "object has no attribute 'items'")

/-- Python `v.get(key)` / `v.get(key, default)`: succeeds exactly on a
dict, yielding `some` of the stored value or `none` if the key is absent;
every other decoded JSON value lacks the attribute. -/
def Json.pyGet (j : Json) (k : String) : Except PyError (Option Json) :=
  match j with
  | .obj entries => .ok (entries.lookup k)
  | _ => .error (.attributeError "object has no attribute 'get'")

/-- Python `len(v)` on a decoded JSON value: defined for str, list and
dict; `TypeError` otherwise. -/
def Json.pyLen : Json → Except PyError Nat
  | .str s => .ok s.length
  | .arr l => .ok l.length
  | .obj l => .ok l.length
  | _ => .error (.typeError "object has no len()")

/-- Python `v[0]` on a decoded JSON value: list indexing, string
indexing, `KeyError` on a dict (string keys never equal `0`),
`TypeError` otherwise. -/
def Json.pySub0 : Json → Except PyError Json
  | .arr (x :: _) => .ok x
  | .arr [] => .error .indexError
  | .str s =>
    match s.toList with
    | [] => .error .indexError
    | c :: _ => .ok (.str (String.mk [c]))
  | .obj _ => .error (.keyError "0")
  | _ => .error (.typeError "object is not subscriptable")

/-- Line 63 of `main`:
`topics = [v for k, v in topics.items()]  # Convert dict to list`. -/
def normalizeTopics (j : Json) : Except PyError (List Json) :=
  match j.pyItems with
  | .error e => .error e
  | .ok entries => .ok (entries.map Prod.snd)

/-- The f-string of line 66:
`f"  • {topic.get('name', 'N/A')} ({topic.get('title', 'N/A')})"`,
evaluated left to right; fails if `topic` is not a dict. -/
def topicLine (topic : Json) : Except PyError String :=
  match topic.pyGet "name" with
  | .error e => .error e
  | .ok nameOpt =>
    match topic.pyGet "title" with
    | .error e => .error e
    | .ok titleOpt =>
      .ok ("  • " ++ (nameOpt.getD (Json.str "N/A")).pyStr ++ " (" ++
        (titleOpt.getD (Json.str "N/A")).pyStr ++ ")")

/-- The loop of lines 65-66: `for topic in topics[:5]: print(...)`.
Each iteration prints one line; a failing iteration keeps the lines the
earlier iterations already printed. -/
def printTopicLines : List Json → List String × Option PyError
  | [] => ([], none)
  | topic :: rest =>
    match topicLine topic with
    | .error e => ([], some e)
    | .ok line =>
      let (ls, err) := printTopicLines rest
      (line :: ls, err)

/-- Lines 64-68 of `main`, starting from the already-normalized list:
print the count header, the first five topic lines, and the
`... and N more` note when more than five topics exist. -/
def reportTopics (topics : List Json) : List String × Option PyError :=
  let header := "Found " ++ toString topics.length ++ " topics:"
  match printTopicLines (topics.take 5) with
  | (ls, some e) => (header :: ls, some e)
  | (ls, none) =>
    if topics.length > 5 then
      (header :: ls ++ ["  ... and " ++ toString (topics.length - 5) ++ " more"], none)
    else
      (header :: ls, none)

/-- The f-string of line 95:
`f"  Hands-on: {'Yes' if tutorial.get('hands_on') else 'No'}"`, applied to
the result of `tutorial.get('hands_on')` (`none` models Python `None` for
an absent key). -/
def handsOnLine (handsOn : Option Json) : String :=
  "  Hands-on: " ++ (if (handsOn.getD Json.null).truthy then "Yes" else "No")

/-- Lines 86-95 of `main`, applied to the outcome of
`fetcher.fetch_topic_details(topic_id)`: the lines these statements print
and the exception escaping them, if any.  (Factored out of `stepFour` so
the details fetch appears exactly once.) -/
def detailsReport : Except PyError Json → List String × Option PyError
  | .error e => ([], some e)
  | .ok topic_details =>
    match topic_details.pyGet "materials" with
    | .error e => ([], some e)
    | .ok materialsOpt =>
      let tutorials := materialsOpt.getD (Json.arr [])
      match tutorials.pyLen with
      | .error e => ([], some e)
      | .ok n =>
        let out₁ := ["  Topic has " ++ toString n ++ " tutorials"]
        if tutorials.truthy then
          match tutorials.pySub0 with
          | .error e => (out₁, some e)
          | .ok tutorial =>
            match tutorial.pyGet "title" with
            | .error e => (out₁, some e)
            | .ok titleOpt =>
              let out₂ := out₁ ++
                ["  First tutorial: " ++ (titleOpt.getD (Json.str "N/A")).pyStr]
              match tutorial.pyGet "time_estimation" with
              | .error e => (out₂, some e)
              | .ok durOpt =>
                let out₃ := out₂ ++
                  ["  Duration: " ++ (durOpt.getD (Json.str "N/A")).pyStr]
                match tutorial.pyGet "hands_on" with
                | .error e => (out₃, some e)
                | .ok hoOpt => (out₃ ++ [handsOnLine hoOpt], none)
        else (out₁, none)

/-- Lines 80-95 of `main`: fetch and print details of the first topic,
guarded by `if topics:` and `if topic_id:`.  Returns the lines printed by
this block and the exception escaping it, if any. -/
def stepFour (w : World) (topics : List Json) : List String × Option PyError :=
  match topics with
  | [] => ([], none)
  | first_topic :: _ =>
    match first_topic.pyGet "name" with
    | .error e => ([], some e)
    | .ok topicIdOpt =>
      let topic_id := topicIdOpt.getD Json.null
      if topic_id.truthy then
        let announce := "\n🔍 Fetching details for topic: " ++ topic_id.pyStr
        let (ls, err) := detailsReport (fetch_topic_details w topic_id.pyStr)
        (announce :: ls, err)
      else ([], none)

/-- The three banner lines `main` prints before the topics fetch
(lines 57, 58, 61). -/
def preludeOut : List String :=
  ["Fetching Galaxy Training Network metadata...",
   String.mk (List.replicate 50 '='),
   "\n📚 Fetching all topics..."]

/-- The `try` block of `main` (lines 56-98): the arguments of the `print`
calls made to standard output, in order, and the exception escaping the
block, if any. -/
def mainTry (w : World) : List String × Option PyError :=
  let out₀ := preludeOut
  match fetch_topics w with
  | .error e => (out₀, some e)
  | .ok topicsJson =>
    match normalizeTopics topicsJson with
    | .error e => (out₀, some e)
    | .ok topics =>
      match reportTopics topics with
      | (tls, some e) => (out₀ ++ tls, some e)
      | (tls, none) =>
        let out₁ := out₀ ++ tls ++ ["\n👥 Fetching contributors..."]
        match fetch_contributors w with
        | .error e => (out₁, some e)
        | .ok contributors =>
          match contributors.pyLen with
          | .error e => (out₁, some e)
          | .ok nContrib =>
            let out₂ := out₁ ++ ["Found " ++ toString nContrib ++ " contributors",
                                 "\n🔧 Fetching top tools..."]
            match fetch_top_tools w with
            | .error e => (out₂, some e)
            | .ok top_tools =>
              match top_tools.pyLen with
              | .error e => (out₂, some e)
              | .ok nTools =>
                let out₃ := out₂ ++ ["Found " ++ toString nTools ++ " tools with tutorials"]
                match stepFour w topics with
                | (fls, some e) => (out₃ ++ fls, some e)
                | (fls, none) =>
                  (out₃ ++ fls ++ ["\n✅ Successfully fetched GTN metadata!",
                    "\nTo save data to files, modify the script to write JSON output."],
                   none)

/-- The observable outcome of one run of the script: the arguments of the
`print` calls to standard output, the lines printed to the error stream,
and the process exit status. -/
structure RunResult where
  stdout : List String
  stderr : List String
  exitCode : Nat
deriving Repr

/-- Embeds `main` (lines 53-105): run the `try` block; an escaping
`requests.exceptions.RequestException` is reported as
`❌ Error fetching data: ...` and any other exception as
`❌ Unexpected error: ...`, both on the error stream followed by
`sys.exit(1)`; otherwise the process ends normally with status 0. -/
def main (w : World) : RunResult :=
  match mainTry w with
  | (out, none) => ⟨out, [], 0⟩
  | (out, some e) =>
    if e.isRequestException then
      ⟨out, ["❌ Error fetching data: " ++ e.msg], 1⟩
    else
      ⟨out, ["❌ Unexpected error: " ++ e.msg], 1⟩

/-! ### Helper definitions for the verification -/

/-- Whether a decoded JSON value is a dict. -/
def Json.isObj : Json → Bool
  | .obj _ => true
  | _ => false

/-- Closed form of defensive field access on a Topic dict, mirroring
`topic.get(key, 'N/A')`: the stored value, or `'N/A'` when the key is
absent or the value is not a dict. -/
def getField (t : Json) (k : String) : Json :=
  match t with
  | .obj es => (es.lookup k).getD (Json.str "N/A")
  | _ => Json.str "N/A"

/-- Closed form of the topic line printed by line 66 for a topic that is
a dict. -/
def renderTopicLine (t : Json) : String :=
  "  • " ++ (getField t "name").pyStr ++ " (" ++ (getField t "title").pyStr ++ ")"

/-- A sample topics document with one topic whose `name` is `a`. -/
def sampleTopics : Json :=
  .obj [("a", .obj [("name", .str "a"), ("title", .str "Alpha")])]

/-- A sample topic-details document with one hands-on tutorial `T1`
that has no `time_estimation`. -/
def detailsJson : Json :=
  .obj [("materials", .arr [.obj [("title", .str "T1"), ("hands_on", .bool true)]])]

/-- An oracle for a fully successful run: one topic `a` with title
`Alpha`, two contributors, one tool, and details for topic `a` holding a
single hands-on tutorial `T1` with no `time_estimation`.  Every other URL
fails at the transport level, so any stray request would abort the run. -/
def wGood : World := fun url =>
  if url = baseUrl ++ "/topics.json" then
    .response 200 (.valid sampleTopics)
  else if url = baseUrl ++ "/contributors.json" then
    .response 200 (.valid (.obj [("x", .null), ("y", .null)]))
  else if url = baseUrl ++ "/top-tools.json" then
    .response 200 (.valid (.obj [("t1", .null)]))
  else if url = baseUrl ++ "/topics/a.json" then
    .response 200 (.valid detailsJson)
  else .transportError "connection refused"

/-- An oracle whose topics endpoint answers `304 Not Modified` (a status
`requests` does not redirect and `raise_for_status` does not reject) with
a body decoding to an empty JSON object; every other endpoint answers
`200` with an empty JSON object. -/
def w304 : World := fun url =>
  if url = baseUrl ++ "/topics.json" then .response 304 (.valid (.obj []))
  else .response 200 (.valid (.obj []))

/-- An oracle answering every request with `200` and a body that is not
valid JSON. -/
def wBadJson : World := fun _ =>
  .response 200 (.invalid "<!DOCTYPE html>")

/-- An oracle whose topics endpoint yields one topic whose `name` field is
present but the empty string; contributors and top-tools answer empty
objects; every other URL (in particular every topic-details URL) fails at
the transport level, so a topic-details request would abort the run. -/
def wEmptyName : World := fun url =>
  if url = baseUrl ++ "/topics.json" then
    .response 200 (.valid (.obj [("t", .obj [("name", .str "")])]))
  else if url = baseUrl ++ "/contributors.json" then
    .response 200 (.valid (.obj []))
  else if url = baseUrl ++ "/top-tools.json" then
    .response 200 (.valid (.obj []))
  else .transportError "connection refused"

/-! ### Claims -/

/-- Claim C1: For every topics response that is a valid JSON keyed mapping,
the reporter's normalization (`topics = [v for k, v in topics.items()]`)
yields a sequence whose length equals the number of entries in the
mapping, and whose `i`-th element is the value of the mapping's `i`-th
entry in iteration (insertion) order. -/
theorem c1_normalization_preserves_length_and_order
    (entries : List (String × Json)) :
    normalizeTopics (Json.obj entries) = Except.ok (entries.map Prod.snd) ∧
    (entries.map Prod.snd).length = entries.length ∧
    ∀ i (h : i < entries.length),
      (entries.map Prod.snd).get ⟨i, by simpa using h⟩ = (entries.get ⟨i, h⟩).2 := by
  refine ⟨rfl, by simp, ?_⟩
  intro i h
  simp [List.get_eq_getElem]

/-- Witness for C1 at a concrete two-entry mapping and index 1. -/
theorem c1_witness :
    normalizeTopics (Json.obj [("a", Json.num 1), ("b", Json.num 2)]) =
      Except.ok ([("a", Json.num 1), ("b", Json.num 2)].map Prod.snd) ∧
    ([("a", Json.num 1), ("b", Json.num 2)].map Prod.snd).get ⟨1, by decide⟩ =
      Json.num 2 := by
  have h := c1_normalization_preserves_length_and_order
    [("a", Json.num 1), ("b", Json.num 2)]
  exact ⟨h.1, h.2.2 1 (by decide)⟩

/-- Claim C6: The hands-on indicator printed for the first tutorial is `No`
when `hands_on` is absent (`tutorial.get` yields `None`) or present but
falsy, and `Yes` when present and truthy. -/
theorem c6_hands_on_indicator :
    handsOnLine none = "  Hands-on: No" ∧
    (∀ v : Json, v.truthy = false → handsOnLine (some v) = "  Hands-on: No") ∧
    (∀ v : Json, v.truthy = true → handsOnLine (some v) = "  Hands-on: Yes") := by
  refine ⟨rfl, ?_, ?_⟩ <;> intro v hv <;> simp [handsOnLine, hv]

/-- Witness for C6 at the concrete values `false`, `0`, `""`, `true`,
and an absent field. -/
theorem c6_witness :
    handsOnLine none = "  Hands-on: No" ∧
    handsOnLine (some (Json.bool false)) = "  Hands-on: No" ∧
    handsOnLine (some (Json.num 0)) = "  Hands-on: No" ∧
    handsOnLine (some (Json.str "")) = "  Hands-on: No" ∧
    handsOnLine (some (Json.bool true)) = "  Hands-on: Yes" ∧
    handsOnLine (some (Json.str "yes")) = "  Hands-on: Yes" :=
  ⟨c6_hands_on_indicator.1,
   c6_hands_on_indicator.2.1 (Json.bool false) (by decide),
   c6_hands_on_indicator.2.1 (Json.num 0) (by decide),
   c6_hands_on_indicator.2.1 (Json.str "") (by decide),
   c6_hands_on_indicator.2.2 (Json.bool true) (by decide),
   c6_hands_on_indicator.2.2 (Json.str "yes") (by decide)⟩

/-- Claim C10: The program is deterministic in its inputs: two runs in which
every HTTP request receives the same response produce the same standard
output, error output and exit status.  (In the embedding the script is a
pure function of the response oracle: it reads no clock, environment or
random source.) -/
theorem c10_deterministic (w₁ w₂ : World) (h : ∀ url, w₁ url = w₂ url) :
    main w₁ = main w₂ := by
  have hw : w₁ = w₂ := funext h
  rw [hw]

/-- Witness for C10 at a concrete oracle. -/
theorem c10_witness : main wGood = main wGood :=
  c10_deterministic wGood wGood (fun _ => rfl)

/-- Counterexample to claim C2: The claim says any non-2xx status makes the
process exit with status 1 and print an error line.  `raise_for_status`
only raises for statuses in [400, 600): on a `304 Not Modified` topics
response whose body decodes to an empty object, the run completes every
step and exits with status 0, printing nothing to the error stream. -/
theorem c2_counterexample :
    w304 (baseUrl ++ "/topics.json") = .response 304 (.valid (.obj [])) ∧
    ¬ (200 ≤ 304 ∧ 304 < 300) ∧
    main w304 =
      ⟨preludeOut ++
        ["Found 0 topics:",
         "\n👥 Fetching contributors...", "Found 0 contributors",
         "\n🔧 Fetching top tools...", "Found 0 tools with tutorials",
         "\n✅ Successfully fetched GTN metadata!",
         "\nTo save data to files, modify the script to write JSON output."],
       [], 0⟩ :=
  ⟨rfl, by decide, rfl⟩

/-- Counterexample to claim C3: The claim says a body that is not valid JSON
is reported by the catch-all handler as `Unexpected error`.  The decode
failure raised by `response.json()` is
`requests.exceptions.JSONDecodeError`, a `RequestException` subclass
(requests ≥ 2.27), so the first handler catches it and the error line
reads `Error fetching data`, not `Unexpected error`. -/
theorem c3_counterexample :
    main wBadJson =
      ⟨preludeOut,
       ["❌ Error fetching data: Expecting value: line 1 column 1 (char 0)"],
       1⟩ ∧
    (main wBadJson).stderr ≠
      ["❌ Unexpected error: Expecting value: line 1 column 1 (char 0)"] :=
  ⟨rfl, by decide⟩

/-- Counterexample to claim C4: The claim says the topic-detail fetch executes
whenever the normalized sequence is non-empty and its first element has a
`name` field.  With one topic whose `name` field is present but the empty
string, the guard `if topic_id:` is false: the run skips step 4 (no
`🔍` line and, since every topic-details URL of this oracle fails at the
transport level, the exit status 0 shows no details request was made). -/
theorem c4_counterexample :
    (Json.obj [("name", Json.str "")]).pyGet "name" =
      Except.ok (some (Json.str "")) ∧
    wEmptyName (baseUrl ++ "/topics/.json") = .transportError "connection refused" ∧
    main wEmptyName =
      ⟨preludeOut ++
        ["Found 1 topics:", "  •  (N/A)",
         "\n👥 Fetching contributors...", "Found 0 contributors",
         "\n🔧 Fetching top tools...", "Found 0 tools with tutorials",
         "\n✅ Successfully fetched GTN metadata!",
         "\nTo save data to files, modify the script to write JSON output."],
       [], 0⟩ :=
  ⟨rfl, rfl, rfl⟩

/-- A fetch against a URL whose response status is outside [400, 600)
and whose body decodes returns the decoded value. -/
theorem httpGetJson_ok (w : World) (url : String) (s : Nat) (j : Json)
    (hs : ¬ (400 ≤ s ∧ s < 600)) (h : w url = .response s (.valid j)) :
    httpGetJson w url = .ok j := by
  unfold httpGetJson
  rw [h]
  simp [hs]

/-- A fetch against a URL whose response status lies in [400, 600) raises
`HTTPError` from `raise_for_status`. -/
theorem httpGetJson_httpError (w : World) (url : String) (s : Nat) (b : BodyContent)
    (hs : 400 ≤ s) (hs6 : s < 600) (h : w url = .response s b) :
    httpGetJson w url = .error (.httpStatus s) := by
  unfold httpGetJson
  rw [h]
  simp [hs, hs6]

/-- A fetch against a URL whose response status is outside [400, 600)
and whose body is not valid JSON raises `JSONDecodeError` from
`response.json()`. -/
theorem httpGetJson_decodeError (w : World) (url : String) (s : Nat) (raw : String)
    (hs : ¬ (400 ≤ s ∧ s < 600)) (h : w url = .response s (.invalid raw)) :
    httpGetJson w url = .error .jsonDecode := by
  unfold httpGetJson
  rw [h]
  simp [hs]

/-- If the topics fetch raises, `main` stops after the banner lines. -/
theorem mainTry_topics_error (w : World) (e : PyError)
    (h : fetch_topics w = .error e) : mainTry w = (preludeOut, some e) := by
  unfold mainTry
  rw [h]

/-- Claim C3 as amended: For every response whose body is not valid JSON
(and whose status does not already trigger `raise_for_status`), the
decode failure raised by `response.json()` is an instance of
`requests.exceptions.RequestException` (via `InvalidJSONError`, requests
≥ 2.27), so it is caught by the handler that reports
`Error fetching data` — not by the catch-all — and the process exits with
status 1. -/
theorem c3_amended_decode_reported_as_fetch_error (w : World) (s : Nat) (raw : String)
    (hs : ¬ (400 ≤ s ∧ s < 600))
    (h1 : w (baseUrl ++ "/topics.json") = .response s (.invalid raw)) :
    PyError.jsonDecode.isRequestException = true ∧
    main w = ⟨preludeOut,
      ["❌ Error fetching data: " ++ PyError.jsonDecode.msg], 1⟩ := by
  refine ⟨rfl, ?_⟩
  have e1 : fetch_topics w = .error .jsonDecode :=
    httpGetJson_decodeError w _ s raw hs h1
  have e2 : mainTry w = (preludeOut, some .jsonDecode) :=
    mainTry_topics_error w _ e1
  unfold main
  rw [e2]
  rfl

/-- Witness for C3's amended theorem at a concrete oracle and status 200. -/
theorem c3_amended_witness :
    PyError.jsonDecode.isRequestException = true ∧
    main wBadJson = ⟨preludeOut,
      ["❌ Error fetching data: " ++ PyError.jsonDecode.msg], 1⟩ :=
  c3_amended_decode_reported_as_fetch_error wBadJson 200 "<!DOCTYPE html>"
    (by decide) rfl

/-- If the first normalized topic is a dict whose `name` value is truthy,
step 4 announces the topic and performs the details fetch for it,
reporting on the fetch's outcome. -/
theorem stepFour_cons (w : World) (es : List (String × Json)) (rest : List Json)
    (v : Json) (hv : es.lookup "name" = some v) (hvt : v.truthy = true) :
    stepFour w (Json.obj es :: rest) =
      (("\n🔍 Fetching details for topic: " ++ v.pyStr) ::
         (detailsReport (fetch_topic_details w v.pyStr)).1,
       (detailsReport (fetch_topic_details w v.pyStr)).2) := by
  unfold stepFour
  simp only [Json.pyGet, hv, Option.getD_some, hvt, if_true]

/-- Claim C2 as amended: For every endpoint in the step sequence, if the HTTP
response has a 4xx or 5xx status — the statuses `raise_for_status`
treats as errors — the fetch raises `HTTPError`, the process exits with
status 1 printing a `❌ Error fetching data` line to the error stream, and
no output of any subsequent step is printed.  (The original claim said
*any non-2xx* status; `c2_counterexample` shows a 304 is not an error.) -/
theorem c2_amended_http_error_aborts (c : Nat) (b : BodyContent)
    (hc : 400 ≤ c) (hc6 : c < 600) :
    (∀ w : World, w (baseUrl ++ "/topics.json") = .response c b →
      main w = ⟨preludeOut,
        ["❌ Error fetching data: " ++ (PyError.httpStatus c).msg], 1⟩) ∧
    (∀ w : World,
      w (baseUrl ++ "/topics.json") = .response 200 (.valid sampleTopics) →
      w (baseUrl ++ "/contributors.json") = .response c b →
      main w = ⟨preludeOut ++
        ["Found 1 topics:", "  • a (Alpha)", "\n👥 Fetching contributors..."],
        ["❌ Error fetching data: " ++ (PyError.httpStatus c).msg], 1⟩) ∧
    (∀ w : World,
      w (baseUrl ++ "/topics.json") = .response 200 (.valid sampleTopics) →
      w (baseUrl ++ "/contributors.json") = .response 200 (.valid (.obj [])) →
      w (baseUrl ++ "/top-tools.json") = .response c b →
      main w = ⟨preludeOut ++
        ["Found 1 topics:", "  • a (Alpha)", "\n👥 Fetching contributors...",
         "Found 0 contributors", "\n🔧 Fetching top tools..."],
        ["❌ Error fetching data: " ++ (PyError.httpStatus c).msg], 1⟩) ∧
    (∀ w : World,
      w (baseUrl ++ "/topics.json") = .response 200 (.valid sampleTopics) →
      w (baseUrl ++ "/contributors.json") = .response 200 (.valid (.obj [])) →
      w (baseUrl ++ "/top-tools.json") = .response 200 (.valid (.obj [])) →
      w (baseUrl ++ "/topics/a.json") = .response c b →
      main w = ⟨preludeOut ++
        ["Found 1 topics:", "  • a (Alpha)", "\n👥 Fetching contributors...",
         "Found 0 contributors", "\n🔧 Fetching top tools...",
         "Found 0 tools with tutorials", "\n🔍 Fetching details for topic: a"],
        ["❌ Error fetching data: " ++ (PyError.httpStatus c).msg], 1⟩) := by
  have hs200 : ¬ (400 ≤ 200 ∧ 200 < 600) := by decide
  refine ⟨?_, ?_, ?_, ?_⟩
  · intro w h1
    have e1 : fetch_topics w = .error (.httpStatus c) :=
      httpGetJson_httpError w _ c b hc hc6 h1
    unfold main mainTry
    rw [e1]
    rfl
  · intro w h1 h2
    have e1 : fetch_topics w = .ok sampleTopics := httpGetJson_ok w _ 200 _ hs200 h1
    have e2 : fetch_contributors w = .error (.httpStatus c) :=
      httpGetJson_httpError w _ c b hc hc6 h2
    unfold main mainTry
    rw [e1, e2]
    rfl
  · intro w h1 h2 h3
    have e1 : fetch_topics w = .ok sampleTopics := httpGetJson_ok w _ 200 _ hs200 h1
    have e2 : fetch_contributors w = .ok (.obj []) := httpGetJson_ok w _ 200 _ hs200 h2
    have e3 : fetch_top_tools w = .error (.httpStatus c) :=
      httpGetJson_httpError w _ c b hc hc6 h3
    unfold main mainTry
    rw [e1, e2, e3]
    rfl
  · intro w h1 h2 h3 h4
    have e1 : fetch_topics w = .ok sampleTopics := httpGetJson_ok w _ 200 _ hs200 h1
    have e2 : fetch_contributors w = .ok (.obj []) := httpGetJson_ok w _ 200 _ hs200 h2
    have e3 : fetch_top_tools w = .ok (.obj []) := httpGetJson_ok w _ 200 _ hs200 h3
    have ed : fetch_topic_details w ((Json.str "a").pyStr) = .error (.httpStatus c) :=
      httpGetJson_httpError w (baseUrl ++ "/topics/" ++ (Json.str "a").pyStr ++ ".json")
        c b hc hc6 (by exact h4)
    have eSF : stepFour w [Json.obj [("name", Json.str "a"), ("title", Json.str "Alpha")]] =
        (["\n🔍 Fetching details for topic: a"], some (.httpStatus c)) := by
      rw [stepFour_cons w [("name", Json.str "a"), ("title", Json.str "Alpha")] []
        (Json.str "a") rfl rfl, ed]
      rfl
    have key : mainTry w =
        (match stepFour w [Json.obj [("name", Json.str "a"), ("title", Json.str "Alpha")]] with
         | (fls, some e) =>
           (preludeOut ++
             ["Found 1 topics:", "  • a (Alpha)", "\n👥 Fetching contributors...",
              "Found 0 contributors", "\n🔧 Fetching top tools...",
              "Found 0 tools with tutorials"] ++ fls, some e)
         | (fls, none) =>
           (preludeOut ++
             ["Found 1 topics:", "  • a (Alpha)", "\n👥 Fetching contributors...",
              "Found 0 contributors", "\n🔧 Fetching top tools...",
              "Found 0 tools with tutorials"] ++ fls ++
             ["\n✅ Successfully fetched GTN metadata!",
              "\nTo save data to files, modify the script to write JSON output."],
            none)) := by
      unfold mainTry
      rw [e1, e2, e3]
      rfl
    unfold main
    rw [key, eSF]
    rfl

/-- Witness for C2's amended theorem: each endpoint failing in turn, at
statuses 404, 503, 500 and 418. -/
theorem c2_amended_witness :
    main (fun _ => .response 404 (.invalid "err")) =
      ⟨preludeOut, ["❌ Error fetching data: " ++ (PyError.httpStatus 404).msg], 1⟩ ∧
    main (fun url =>
        if url = baseUrl ++ "/topics.json" then .response 200 (.valid sampleTopics)
        else .response 503 (.valid .null)) =
      ⟨preludeOut ++
        ["Found 1 topics:", "  • a (Alpha)", "\n👥 Fetching contributors..."],
        ["❌ Error fetching data: " ++ (PyError.httpStatus 503).msg], 1⟩ ∧
    main (fun url =>
        if url = baseUrl ++ "/topics.json" then .response 200 (.valid sampleTopics)
        else if url = baseUrl ++ "/contributors.json" then .response 200 (.valid (.obj []))
        else .response 500 (.invalid "")) =
      ⟨preludeOut ++
        ["Found 1 topics:", "  • a (Alpha)", "\n👥 Fetching contributors...",
         "Found 0 contributors", "\n🔧 Fetching top tools..."],
        ["❌ Error fetching data: " ++ (PyError.httpStatus 500).msg], 1⟩ ∧
    main (fun url =>
        if url = baseUrl ++ "/topics.json" then .response 200 (.valid sampleTopics)
        else if url = baseUrl ++ "/contributors.json" then .response 200 (.valid (.obj []))
        else if url = baseUrl ++ "/top-tools.json" then .response 200 (.valid (.obj []))
        else .response 418 (.invalid "teapot")) =
      ⟨preludeOut ++
        ["Found 1 topics:", "  • a (Alpha)", "\n👥 Fetching contributors...",
         "Found 0 contributors", "\n🔧 Fetching top tools...",
         "Found 0 tools with tutorials", "\n🔍 Fetching details for topic: a"],
        ["❌ Error fetching data: " ++ (PyError.httpStatus 418).msg], 1⟩ :=
  ⟨(c2_amended_http_error_aborts 404 (.invalid "err") (by decide) (by decide)).1 _ rfl,
   (c2_amended_http_error_aborts 503 (.valid .null) (by decide) (by decide)).2.1 _ rfl rfl,
   (c2_amended_http_error_aborts 500 (.invalid "") (by decide) (by decide)).2.2.1 _ rfl rfl rfl,
   (c2_amended_http_error_aborts 418 (.invalid "teapot") (by decide) (by decide)).2.2.2 _
     rfl rfl rfl rfl⟩

/-- Claim C4 as amended: The topic-detail fetch executes exactly when the
normalized topics sequence is non-empty and the first topic's `name`
value is truthy (the guard is `if topic_id:`, a truthiness test, so a
present-but-falsy `name` also skips the step); with an empty topics
mapping the reporter prints a count of 0 and skips step 4 without
error. -/
theorem c4_amended_details_guard :
    (∀ w : World, stepFour w [] = ([], none)) ∧
    (∀ (w : World) (es : List (String × Json)) (rest : List Json),
      es.lookup "name" = none → stepFour w (Json.obj es :: rest) = ([], none)) ∧
    (∀ (w : World) (es : List (String × Json)) (rest : List Json) (v : Json),
      es.lookup "name" = some v → v.truthy = false →
      stepFour w (Json.obj es :: rest) = ([], none)) ∧
    (∀ (w : World) (es : List (String × Json)) (rest : List Json) (v : Json),
      es.lookup "name" = some v → v.truthy = true →
      stepFour w (Json.obj es :: rest) =
        (("\n🔍 Fetching details for topic: " ++ v.pyStr) ::
           (detailsReport (fetch_topic_details w v.pyStr)).1,
         (detailsReport (fetch_topic_details w v.pyStr)).2)) ∧
    (∀ w : World,
      w (baseUrl ++ "/topics.json") = .response 200 (.valid (.obj [])) →
      w (baseUrl ++ "/contributors.json") = .response 200 (.valid (.obj [])) →
      w (baseUrl ++ "/top-tools.json") = .response 200 (.valid (.obj [])) →
      main w = ⟨preludeOut ++
        ["Found 0 topics:", "\n👥 Fetching contributors...", "Found 0 contributors",
         "\n🔧 Fetching top tools...", "Found 0 tools with tutorials",
         "\n✅ Successfully fetched GTN metadata!",
         "\nTo save data to files, modify the script to write JSON output."],
        [], 0⟩) := by
  have hs200 : ¬ (400 ≤ 200 ∧ 200 < 600) := by decide
  refine ⟨fun w => rfl, ?_, ?_, stepFour_cons, ?_⟩
  · intro w es rest hv
    simp [stepFour, Json.pyGet, hv, Json.truthy]
  · intro w es rest v hv hvt
    simp [stepFour, Json.pyGet, hv, hvt]
  · intro w h1 h2 h3
    have e1 : fetch_topics w = .ok (.obj []) := httpGetJson_ok w _ 200 _ hs200 h1
    have e2 : fetch_contributors w = .ok (.obj []) := httpGetJson_ok w _ 200 _ hs200 h2
    have e3 : fetch_top_tools w = .ok (.obj []) := httpGetJson_ok w _ 200 _ hs200 h3
    unfold main mainTry
    rw [e1, e2, e3]
    rfl

/-- Witness for C4's amended theorem: each guard case at concrete
inputs — empty sequence, absent `name`, falsy `name`, truthy `name`
(against `wGood`, whose details fetch succeeds), and an empty topics
mapping driving a full run. -/
theorem c4_amended_witness :
    stepFour wGood [] = ([], none) ∧
    stepFour wGood [Json.obj [("title", Json.str "T")]] = ([], none) ∧
    stepFour wGood [Json.obj [("name", Json.str "")]] = ([], none) ∧
    stepFour wGood [Json.obj [("name", Json.str "a"), ("title", Json.str "Alpha")]] =
      (["\n🔍 Fetching details for topic: a", "  Topic has 1 tutorials",
        "  First tutorial: T1", "  Duration: N/A", "  Hands-on: Yes"], none) ∧
    main (fun _ => .response 200 (.valid (.obj []))) =
      ⟨preludeOut ++
        ["Found 0 topics:", "\n👥 Fetching contributors...", "Found 0 contributors",
         "\n🔧 Fetching top tools...", "Found 0 tools with tutorials",
         "\n✅ Successfully fetched GTN metadata!",
         "\nTo save data to files, modify the script to write JSON output."],
        [], 0⟩ := by
  refine ⟨c4_amended_details_guard.1 wGood,
    c4_amended_details_guard.2.1 wGood [("title", Json.str "T")] [] rfl,
    c4_amended_details_guard.2.2.1 wGood [("name", Json.str "")] [] (Json.str "") rfl rfl,
    ?_,
    c4_amended_details_guard.2.2.2.2 (fun _ => .response 200 (.valid (.obj []))) rfl rfl rfl⟩
  rw [c4_amended_details_guard.2.2.2.1 wGood
    [("name", Json.str "a"), ("title", Json.str "Alpha")] [] (Json.str "a") rfl rfl]
  rfl

/-- If every one of the first five normalized topics is a dict, the
per-topic print loop prints exactly one line per topic, in order, with
`N/A` substituted for missing fields, and raises nothing. -/
theorem printTopicLines_obj (ts : List Json) (h : ∀ t ∈ ts, t.isObj = true) :
    printTopicLines ts = (ts.map renderTopicLine, none) := by
  induction ts with
  | nil => rfl
  | cons t ts ih =>
    obtain ⟨es, rfl⟩ : ∃ es, t = Json.obj es := by
      have ht := h t (List.mem_cons_self t ts)
      cases t <;> simp_all [Json.isObj]
    have htl : topicLine (Json.obj es) = .ok (renderTopicLine (Json.obj es)) := rfl
    simp [printTopicLines, htl, ih (fun u hu => h u (List.mem_cons_of_mem _ hu))]

/-- Claim C5: For a normalized topics sequence whose first five entries are
dicts, the reporter prints the total count header, then exactly the first
five entries' `name`/`title` lines (substituting `N/A` for a missing
field, raising nothing), and a `... and N more` line exactly when the
count exceeds 5, with `N` equal to count minus 5. -/
theorem c5_topics_listing (topics : List Json)
    (h : ∀ t ∈ topics.take 5, t.isObj = true) :
    reportTopics topics =
      (("Found " ++ toString topics.length ++ " topics:") ::
        ((topics.take 5).map renderTopicLine ++
          (if 5 < topics.length then
            ["  ... and " ++ toString (topics.length - 5) ++ " more"]
          else [])),
       none) := by
  unfold reportTopics
  rw [printTopicLines_obj _ h]
  by_cases h5 : topics.length > 5
  · simp [h5]
  · simp [h5]

/-- Witness for C5: the spec's example of a 7-entry topics mapping — the
first five lines are printed (with `N/A` for the one missing title)
followed by `... and 2 more`. -/
theorem c5_witness :
    reportTopics
      [Json.obj [("name", Json.str "t1"), ("title", Json.str "T1")],
       Json.obj [("name", Json.str "t2"), ("title", Json.str "T2")],
       Json.obj [("name", Json.str "t3")],
       Json.obj [("name", Json.str "t4"), ("title", Json.str "T4")],
       Json.obj [("name", Json.str "t5"), ("title", Json.str "T5")],
       Json.obj [("name", Json.str "t6"), ("title", Json.str "T6")],
       Json.obj [("name", Json.str "t7"), ("title", Json.str "T7")]] =
      (["Found 7 topics:",
        "  • t1 (T1)", "  • t2 (T2)", "  • t3 (N/A)", "  • t4 (T4)", "  • t5 (T5)",
        "  ... and 2 more"],
       none) := by
  rw [c5_topics_listing _ (by
    intro t ht
    simp only [List.take, List.mem_cons, List.not_mem_nil, or_false] at ht
    rcases ht with rfl | rfl | rfl | rfl | rfl <;> rfl)]
  rfl

/-- Claim C7: On a run in which no fetch fails and no field access raises,
the reporter performs the steps in the fixed order — topics,
contributors, top tools, then (here, with a truthy first topic name)
topic details — prints the final success line, and the process exits with
status 0; whenever the `try` block ends without an exception the process
exits 0 with an empty error stream, and whenever it ends with a caught
exception the process exits 1, keeps the output printed so far, and
prints an error line. -/
theorem c7_step_order_and_exit_status :
    (∀ w : World,
      w (baseUrl ++ "/topics.json") = .response 200 (.valid sampleTopics) →
      w (baseUrl ++ "/contributors.json") =
        .response 200 (.valid (.obj [("x", .null), ("y", .null)])) →
      w (baseUrl ++ "/top-tools.json") = .response 200 (.valid (.obj [("t1", .null)])) →
      w (baseUrl ++ "/topics/a.json") = .response 200 (.valid detailsJson) →
      main w = ⟨preludeOut ++
        ["Found 1 topics:", "  • a (Alpha)",
         "\n👥 Fetching contributors...", "Found 2 contributors",
         "\n🔧 Fetching top tools...", "Found 1 tools with tutorials",
         "\n🔍 Fetching details for topic: a", "  Topic has 1 tutorials",
         "  First tutorial: T1", "  Duration: N/A", "  Hands-on: Yes",
         "\n✅ Successfully fetched GTN metadata!",
         "\nTo save data to files, modify the script to write JSON output."],
        [], 0⟩) ∧
    (∀ (w : World) (out : List String),
      mainTry w = (out, none) → main w = ⟨out, [], 0⟩) ∧
    (∀ (w : World) (out : List String) (e : PyError),
      mainTry w = (out, some e) →
      (main w).exitCode = 1 ∧ (main w).stdout = out ∧ (main w).stderr ≠ []) := by
  have hs200 : ¬ (400 ≤ 200 ∧ 200 < 600) := by decide
  refine ⟨?_, ?_, ?_⟩
  · intro w h1 h2 h3 h4
    have e1 : fetch_topics w = .ok sampleTopics := httpGetJson_ok w _ 200 _ hs200 h1
    have e2 : fetch_contributors w = .ok (.obj [("x", .null), ("y", .null)]) :=
      httpGetJson_ok w _ 200 _ hs200 h2
    have e3 : fetch_top_tools w = .ok (.obj [("t1", .null)]) :=
      httpGetJson_ok w _ 200 _ hs200 h3
    have ed : fetch_topic_details w ((Json.str "a").pyStr) = .ok detailsJson :=
      httpGetJson_ok w (baseUrl ++ "/topics/" ++ (Json.str "a").pyStr ++ ".json")
        200 _ hs200 (by exact h4)
    have eSF : stepFour w [Json.obj [("name", Json.str "a"), ("title", Json.str "Alpha")]] =
        (["\n🔍 Fetching details for topic: a", "  Topic has 1 tutorials",
          "  First tutorial: T1", "  Duration: N/A", "  Hands-on: Yes"], none) := by
      rw [stepFour_cons w [("name", Json.str "a"), ("title", Json.str "Alpha")] []
        (Json.str "a") rfl rfl, ed]
      rfl
    have key : mainTry w =
        (match stepFour w [Json.obj [("name", Json.str "a"), ("title", Json.str "Alpha")]] with
         | (fls, some e) =>
           (preludeOut ++
             ["Found 1 topics:", "  • a (Alpha)", "\n👥 Fetching contributors...",
              "Found 2 contributors", "\n🔧 Fetching top tools...",
              "Found 1 tools with tutorials"] ++ fls, some e)
         | (fls, none) =>
           (preludeOut ++
             ["Found 1 topics:", "  • a (Alpha)", "\n👥 Fetching contributors...",
              "Found 2 contributors", "\n🔧 Fetching top tools...",
              "Found 1 tools with tutorials"] ++ fls ++
             ["\n✅ Successfully fetched GTN metadata!",
              "\nTo save data to files, modify the script to write JSON output."],
            none)) := by
      unfold mainTry
      rw [e1, e2, e3]
      rfl
    unfold main
    rw [key, eSF]
    rfl
  · intro w out h
    unfold main
    rw [h]
  · intro w out e h
    refine ⟨?_, ?_, ?_⟩ <;> unfold main <;> rw [h] <;>
      cases hb : e.isRequestException <;> simp [hb]

/-- Witness for C7 at three concrete oracles: the fully successful run,
a success through the `try` block with an empty topics mapping, and a
run aborted by a transport failure. -/
theorem c7_witness :
    main wGood = ⟨preludeOut ++
      ["Found 1 topics:", "  • a (Alpha)",
       "\n👥 Fetching contributors...", "Found 2 contributors",
       "\n🔧 Fetching top tools...", "Found 1 tools with tutorials",
       "\n🔍 Fetching details for topic: a", "  Topic has 1 tutorials",
       "  First tutorial: T1", "  Duration: N/A", "  Hands-on: Yes",
       "\n✅ Successfully fetched GTN metadata!",
       "\nTo save data to files, modify the script to write JSON output."],
      [], 0⟩ ∧
    main w304 = ⟨preludeOut ++
      ["Found 0 topics:", "\n👥 Fetching contributors...", "Found 0 contributors",
       "\n🔧 Fetching top tools...", "Found 0 tools with tutorials",
       "\n✅ Successfully fetched GTN metadata!",
       "\nTo save data to files, modify the script to write JSON output."],
      [], 0⟩ ∧
    ((main (fun _ => .transportError "boom")).exitCode = 1 ∧
     (main (fun _ => .transportError "boom")).stdout = preludeOut ∧
     (main (fun _ => .transportError "boom")).stderr ≠ []) :=
  ⟨c7_step_order_and_exit_status.1 wGood rfl rfl rfl rfl,
   c7_step_order_and_exit_status.2.1 w304 _ rfl,
   c7_step_order_and_exit_status.2.2 (fun _ => .transportError "boom") preludeOut
     (.transport "boom") rfl⟩

/-- If the topics body decodes but normalization raises, `main` stops
after the banner lines with that exception. -/
theorem mainTry_normalize_error (w : World) (j : Json) (e : PyError)
    (hf : fetch_topics w = .ok j) (hn : normalizeTopics j = .error e) :
    mainTry w = (preludeOut, some e) := by
  unfold mainTry
  rw [hf]
  simp only [hn]

/-- Claim C8: If the topics endpoint returns valid JSON that is not a keyed
mapping, the normalization `topics.items()` raises `AttributeError`
unconditionally (there is no mapping-shape guard); `AttributeError` is
not a `RequestException`, so the catch-all handler reports
`Unexpected error` and the process exits with status 1. -/
theorem c8_non_mapping_topics_unexpected_error (w : World) (j : Json) (s : Nat)
    (hj : j.isObj = false) (hs : ¬ (400 ≤ s ∧ s < 600))
    (h1 : w (baseUrl ++ "/topics.json") = .response s (.valid j)) :
    (PyError.attributeError "object has no attribute 'items'").isRequestException
      = false ∧
    main w = ⟨preludeOut,
      ["❌ Unexpected error: object has no attribute 'items'"], 1⟩ := by
  refine ⟨rfl, ?_⟩
  have e1 : fetch_topics w = .ok j := httpGetJson_ok w _ s j hs h1
  have en : normalizeTopics j =
      .error (.attributeError "object has no attribute 'items'") := by
    cases j <;> simp_all [normalizeTopics, Json.pyItems, Json.isObj]
  have em := mainTry_normalize_error w j _ e1 en
  unfold main
  rw [em]
  rfl

/-- Witness for C8 at a topics response of a JSON array. -/
theorem c8_witness :
    (PyError.attributeError "object has no attribute 'items'").isRequestException
      = false ∧
    main (fun _ => .response 200 (.valid (.arr [.num 1]))) =
      ⟨preludeOut, ["❌ Unexpected error: object has no attribute 'items'"], 1⟩ :=
  c8_non_mapping_topics_unexpected_error (fun _ => .response 200 (.valid (.arr [.num 1])))
    (.arr [.num 1]) 200 rfl (by decide) rfl

/-- Claim C9: When the first topic's `name` field is present but falsy, the
run skips step 4 without error and — since the conclusion holds with no
hypothesis about any topic-details URL — without consulting the
topic-details endpoint: the guard tests the truthiness of the retrieved
value, not the presence of the field. -/
theorem c9_falsy_name_skips_details (w : World) (v : Json)
    (hv : v.truthy = false)
    (h1 : w (baseUrl ++ "/topics.json") =
      .response 200 (.valid (.obj [("t", .obj [("name", v)])])))
    (h2 : w (baseUrl ++ "/contributors.json") = .response 200 (.valid (.obj [])))
    (h3 : w (baseUrl ++ "/top-tools.json") = .response 200 (.valid (.obj []))) :
    main w = ⟨preludeOut ++
      ["Found 1 topics:", "  • " ++ v.pyStr ++ " (" ++ "N/A" ++ ")",
       "\n👥 Fetching contributors...", "Found 0 contributors",
       "\n🔧 Fetching top tools...", "Found 0 tools with tutorials",
       "\n✅ Successfully fetched GTN metadata!",
       "\nTo save data to files, modify the script to write JSON output."],
      [], 0⟩ := by
  have hs200 : ¬ (400 ≤ 200 ∧ 200 < 600) := by decide
  have e1 : fetch_topics w = .ok (.obj [("t", .obj [("name", v)])]) :=
    httpGetJson_ok w _ 200 _ hs200 h1
  have e2 : fetch_contributors w = .ok (.obj []) := httpGetJson_ok w _ 200 _ hs200 h2
  have e3 : fetch_top_tools w = .ok (.obj []) := httpGetJson_ok w _ 200 _ hs200 h3
  have eSF : stepFour w [Json.obj [("name", v)]] = ([], none) := by
    simp [stepFour, Json.pyGet, hv]
  have key : mainTry w =
      (match stepFour w [Json.obj [("name", v)]] with
       | (fls, some e) =>
         (preludeOut ++
           ["Found 1 topics:", "  • " ++ v.pyStr ++ " (" ++ "N/A" ++ ")",
            "\n👥 Fetching contributors...", "Found 0 contributors",
            "\n🔧 Fetching top tools...", "Found 0 tools with tutorials"] ++ fls,
          some e)
       | (fls, none) =>
         (preludeOut ++
           ["Found 1 topics:", "  • " ++ v.pyStr ++ " (" ++ "N/A" ++ ")",
            "\n👥 Fetching contributors...", "Found 0 contributors",
            "\n🔧 Fetching top tools...", "Found 0 tools with tutorials"] ++ fls ++
           ["\n✅ Successfully fetched GTN metadata!",
            "\nTo save data to files, modify the script to write JSON output."],
          none)) := by
    unfold mainTry
    rw [e1, e2, e3]
    with_unfolding_all rfl
  unfold main
  rw [key, eSF]
  with_unfolding_all rfl

/-- Witness for C9: a first topic with `name` equal to the empty string,
against an oracle whose every topic-details URL fails at the transport
level (so a details request would have aborted the run). -/
theorem c9_witness :
    main wEmptyName = ⟨preludeOut ++
      ["Found 1 topics:", "  • " ++ (Json.str "").pyStr ++ " (" ++ "N/A" ++ ")",
       "\n👥 Fetching contributors...", "Found 0 contributors",
       "\n🔧 Fetching top tools...", "Found 0 tools with tutorials",
       "\n✅ Successfully fetched GTN metadata!",
       "\nTo save data to files, modify the script to write JSON output."],
      [], 0⟩ :=
  c9_falsy_name_skips_details wEmptyName (Json.str "") rfl rfl rfl rfl

end GTN
